import Mathlib

/-!
Verification of the NDBC buoy-telemetry pipeline (`process_data.py`):
telemetry line parsing (METBK, WAVSS), derived variables, 10-minute
temporal aggregation, stream merging with redundancy fallback, and the
NDBC XML bulletin encoder.

Conventions of the embedding:
* Machine floats are modelled by `ℝ` for the transcendental derived-variable
  formulas and by `ℚ` for the binning/merging/encoding arithmetic; a missing
  value (`NaN` in the source) is `Option.none`.
* Timestamps are modelled as seconds (`ℕ`); the 10-minute resampling width is
  600 seconds, and pandas' absolute-clock bin of a timestamp `t` is `t / 600`.
* Raw text lines are modelled as `List Char`.
-/

namespace NDBC

/-! ## Derived variable calculator (`process_data.py`, lines 441-461) -/

/-- `adjust_pressure_to_sea_level(pres, temp, height)`:
`slp = pres / exp(-height / ((temp + 273.15) * 29.263))`. -/
noncomputable def adjust_pressure_to_sea_level (pres temp height : ℝ) : ℝ :=
  pres / Real.exp (-height / ((temp + 273.15) * 29.263))

/-- `calculate_wind_speed(eastward, northward) = sqrt(u^2 + v^2)`. -/
noncomputable def calculate_wind_speed (eastward northward : ℝ) : ℝ :=
  Real.sqrt (eastward ^ 2 + northward ^ 2)

/-- `calculate_wind_direction(eastward, northward) = 180/pi * arctan2(-u, -v)`,
with `arctan2 y x` embedded as `Complex.arg (x + y*I)` (the principal value in
`(-pi, pi]`, matching `np.arctan2`). -/
noncomputable def calculate_wind_direction (eastward northward : ℝ) : ℝ :=
  180 / Real.pi * (Complex.ofReal (-northward) + Complex.ofReal (-eastward) * Complex.I).arg

/-- The post-processing step of `METBK.process_data` (lines 290-292):
`x + 360 if x < 0 else x`, applied to each wind direction. -/
noncomputable def normalize_wind_direction (x : ℝ) : ℝ :=
  if x < 0 then x + 360 else x

/-- Wind direction as reported: `calculate_wind_direction` followed by the
add-360-if-negative adjustment. -/
noncomputable def reported_wind_direction (eastward northward : ℝ) : ℝ :=
  normalize_wind_direction (calculate_wind_direction eastward northward)

/-! ## Table model

A row of the merged per-buoy table is an association list from column name to
cell value; `none` is a missing cell (`NaN`).  A frame pairs each time-bin
timestamp with its row. -/

/-- One table row: column name to optional value. -/
abbrev Row : Type := List (String × Option ℚ)

/-- A table: time-bin timestamp (seconds) paired with the row. -/
abbrev Frame : Type := List (ℕ × Row)

/-- First binding of a column in a row, distinguishing an absent column
(`none`) from a present-but-missing cell (`some none`). -/
def lookupCol : Row → String → Option (Option ℚ)
  | [], _ => none
  | e :: rest, c => if e.1 = c then some e.2 else lookupCol rest c

/-- Cell value of a column, treating an absent column as missing
(the merged table always carries every column of every constituent). -/
def getCol (row : Row) (c : String) : Option ℚ :=
  (lookupCol row c).getD none

/-- Column assignment, as in `df[col] = series`: every cell of an existing
column is replaced; a new column is appended at the end. -/
def setCol : Row → String → Option ℚ → Row
  | [], c, v => [(c, v)]
  | e :: rest, c, v =>
    if e.1 = c then (c, v) :: setCol rest c v else e :: setCol rest c v

/-! ## Temporal aggregator (`df.resample('10T').mean()`)

`pandas` partitions the time axis into fixed-width half-open bins aligned to
absolute clock boundaries (bin of `t` is `t / w`), emits every bin between the
first and the last sample inclusive, and averages the non-missing values per
bin (`mean` skips `NaN`; a bin with no non-missing value gets `NaN`). -/

/-- Average of the non-missing samples of one column falling in bin `b`
(timestamps `t` with `t / w = b`); `none` when there is no such sample. -/
def colAgg (w b : ℕ) (samples : List (ℕ × Option ℚ)) : Option ℚ :=
  let vs := (samples.filter (fun s => s.1 / w = b)).filterMap (fun s => s.2)
  if vs.isEmpty then none else some (vs.sum / (vs.length : ℚ))

/-- Bin timestamps emitted by `resample`: one per `w`-second bin from the bin
of the earliest sample to the bin of the latest, inclusive. -/
def resampleIndex (w : ℕ) (times : List ℕ) : List ℕ :=
  match times with
  | [] => []
  | t :: ts =>
    let lo := (ts.foldl min t) / w
    let hi := (ts.foldl max t) / w
    (List.range (hi - lo + 1)).map (fun i => (lo + i) * w)

/-- `df.resample('10T').mean()` for a whole table: for every emitted bin and
every column, the skip-`NaN` average of the samples in that bin. -/
def resampleFrame (w : ℕ) (cols : List String) (rows : List (ℕ × Row)) : Frame :=
  (resampleIndex w (rows.map (fun r => r.1))).map (fun bt =>
    (bt, cols.map (fun c =>
      (c, colAgg w (bt / w) (rows.map (fun r => (r.1, getCol r.2 c)))))))

/-- Modelled from the spec: the invariant description of a bin's aggregated
value — the arithmetic mean of all non-missing sample values whose timestamp
falls in the half-open interval `[b*w, (b+1)*w)`, `none` when there is no
such sample.  Stated separately from `colAgg` (which uses pandas' bin index
`t / w`) so the two can be compared. -/
def specBinMean (w b : ℕ) (samples : List (ℕ × Option ℚ)) : Option ℚ :=
  let vs := (samples.filter (fun s => b * w ≤ s.1 ∧ s.1 < (b + 1) * w)).filterMap
    (fun s => s.2)
  if vs.isEmpty then none else some (vs.sum / (vs.length : ℚ))

/-- `NDBC.create_empty_dataset` (lines 105-122): a 2-row all-`NaN` table
indexed at `startTime` and `now` over the merged columns, resampled to
10-minute averages. -/
def create_empty_dataset (startTime now : ℕ) (cols : List String) : Frame :=
  resampleFrame 600 cols
    [(startTime, cols.map (fun c => (c, (none : Option ℚ)))),
     (now, cols.map (fun c => (c, (none : Option ℚ))))]

/-! ## Stream merger redundancy fallback (`__main__`, lines 763-766)

`merged["METBK1 X"] = merged["METBK1 X"].fillna(merged["METBK2 X"])` for
X in {RELATIVE_HUMIDITY, LONGWAVE_IRRADIANCE, SHORTWAVE_IRRADIANCE}. -/

/-- `Series.fillna` on one cell: keep the primary value when present,
otherwise take the fallback. -/
def fillna (p s : Option ℚ) : Option ℚ :=
  match p with
  | some v => some v
  | none => s

/-- One `dst = dst.fillna(src)` column statement applied to a row. -/
def fillCol (row : Row) (dst src : String) : Row :=
  setCol row dst (fillna (getCol row dst) (getCol row src))

/-- The three fallback statements of the main script, in source order. -/
def fallbackRow (row : Row) : Row :=
  fillCol
    (fillCol
      (fillCol row "METBK1 RELATIVE_HUMIDITY" "METBK2 RELATIVE_HUMIDITY")
      "METBK1 LONGWAVE_IRRADIANCE" "METBK2 LONGWAVE_IRRADIANCE")
    "METBK1 SHORTWAVE_IRRADIANCE" "METBK2 SHORTWAVE_IRRADIANCE"

/-- The fallback applied to the whole merged table (column statements act
cell-wise on each time bin). -/
def applyFallback (frame : Frame) : Frame :=
  frame.map (fun p => (p.1, fallbackRow p.2))

/-! ## Bulletin encoder (`NDBC.parse_data_to_xml`, lines 26-102) -/

/-- Value chosen for one configured tag of one row: the mapped column's value
when the column exists in the row and is not `NaN`, otherwise the tag's
default from the data map (lines 53-66). -/
def tagValue (name_map : List (String × String)) (row : Row) (tag : String)
    (default : ℚ) : ℚ :=
  match List.lookup tag name_map with
  | none => default
  | some column =>
    match lookupCol row column with
    | none => default
    | some none => default
    | some (some v) => v

/-- The `<message>` block emitted for one row (lines 68-99). -/
def messageLines (WMO : String) (data_map : List (String × ℚ))
    (name_map : List (String × String)) (t : ℕ) (row : Row) : List String :=
  ["<message>",
   "  <station>" ++ WMO ++ "</station>",
   "  <date>" ++ toString t ++ "</date>",
   "  <missing>-9999</missing>",
   "  <roundtime>no</roundtime>",
   "  <met>"]
  ++ data_map.map (fun td =>
      "    <" ++ td.1 ++ ">" ++ toString (tagValue name_map row td.1 td.2)
        ++ "</" ++ td.1 ++ ">")
  ++ ["  </met>", "</message>"]

/-- `NDBC.parse_data_to_xml`: the XML declaration followed by one message
block per row of the table, in row order. -/
def parse_data_to_xml (WMO : String) (data_map : List (String × ℚ))
    (name_map : List (String × String)) (data : Frame) : List String :=
  "<?xml version=\"1.0\" encoding=\"ISO-8859-1\"?>"
    :: data.flatMap (fun p => messageLines WMO data_map name_map p.1 p.2)

/-- Number of `<message>` blocks in an encoded document. -/
def countMessages (xml : List String) : ℕ :=
  (xml.filter (fun l => l = "<message>")).length

/-! ## Telemetry line parser: shared text helpers

Raw lines are `List Char`.  The helpers below embed the Python string and
`re` primitives the parser uses, specialised to the parser's two patterns. -/

/-- Characters of a raw text line. -/
abbrev Chars : Type := List Char

/-- Python's whitespace class `\s` (also the class used by `str.split()`):
space, tab, newline, carriage return, vertical tab, form feed. -/
def pyIsSpace (c : Char) : Bool :=
  c == ' ' || c == '\t' || c == '\n' || c == '\r' || c == '\x0b' || c == '\x0c'

/-- `str.split()` with no argument: split on whitespace runs, discarding
empty fields. -/
def pySplitGo (cur : Chars) : Chars → List Chars
  | [] => if cur.isEmpty then [] else [cur.reverse]
  | c :: rest =>
    if pyIsSpace c then
      if cur.isEmpty then pySplitGo [] rest else cur.reverse :: pySplitGo [] rest
    else pySplitGo (c :: cur) rest

/-- `line.split()`. -/
def pySplit (cs : Chars) : List Chars := pySplitGo [] cs

/-- Does `pat` occur at the head of the text? -/
def leadsWith : Chars → Chars → Bool
  | [], _ => true
  | _ :: _, [] => false
  | p :: ps, c :: cs => p == c && leadsWith ps cs

/-- Does `pat` occur anywhere in the text (Python `pat in line`)? -/
def containsSub (pat : Chars) : Chars → Bool
  | [] => leadsWith pat []
  | c :: rest => leadsWith pat (c :: rest) || containsSub pat rest

/-- Maximal run of ASCII digits allowing single underscores between digits,
after a leading digit has been consumed (Python numeric-literal digits). -/
def digitTail : Chars → Chars
  | '_' :: c :: rest => if c.isDigit then digitTail rest else '_' :: c :: rest
  | c :: rest => if c.isDigit then digitTail rest else c :: rest
  | [] => []

/-- Consume a nonempty digit group (digits with single interior underscores);
`none` when the text does not start with a digit. -/
def parseDigits : Chars → Option Chars
  | c :: rest => if c.isDigit then some (digitTail rest) else none
  | [] => none

/-- Strip one optional leading sign. -/
def stripSign (cs : Chars) : Chars :=
  match cs with
  | '+' :: r => r
  | '-' :: r => r
  | _ => cs

/-- Case-insensitive comparison against a literal. -/
def lowerEq (cs : Chars) (s : String) : Bool :=
  (cs.map Char.toLower) == s.data

/-- The non-numeric tokens `float()` accepts: inf, infinity, nan. -/
def isInfNan (cs : Chars) : Bool :=
  lowerEq cs "inf" || lowerEq cs "infinity" || lowerEq cs "nan"

/-- Optional exponent suffix (`e`/`E`, optional sign, digit group), which must
exhaust the token. -/
def expTail (cs : Chars) : Bool :=
  match cs with
  | [] => true
  | c :: r =>
    (c == 'e' || c == 'E') &&
      (match parseDigits (stripSign r) with
       | some [] => true
       | _ => false)

/-- Numeric body of a `float()` literal after the sign:
`digits [. [digits]] [exp]` or `. digits [exp]`. -/
def floatBody (cs : Chars) : Bool :=
  match parseDigits cs with
  | some rest =>
    match rest with
    | '.' :: r2 =>
      (match parseDigits r2 with
       | some r3 => expTail r3
       | none => expTail r2)
    | _ => expTail rest
  | none =>
    match cs with
    | '.' :: r2 =>
      (match parseDigits r2 with
       | some r3 => expTail r3
       | none => false)
    | _ => false

/-- Does Python's `float(token)` succeed (ASCII digits)? -/
def isPyFloat (cs : Chars) : Bool :=
  isInfNan (stripSign cs) || floatBody (stripSign cs)

/-! ## METBK parser (`METBK`, lines 127-221) -/

/-- Expect one literal character. -/
def expectChar (c : Char) : Chars → Option Chars
  | x :: r => if x == c then some r else none
  | [] => none

/-- Expect exactly `n` ASCII digits (`\d{n}`). -/
def takeDigits : ℕ → Chars → Option Chars
  | 0, cs => some cs
  | n + 1, c :: cs => if c.isDigit then takeDigits n cs else none
  | _ + 1, [] => none

/-- Expect one character other than a newline (the regex `.` without
`DOTALL`). -/
def anyNotNl : Chars → Option Chars
  | c :: r => if c == '\n' then none else some r
  | [] => none

/-- Expect a greedy nonempty digit run (`\d+`). -/
def digitsPlus : Chars → Option Chars
  | c :: r => if c.isDigit then some (r.dropWhile Char.isDigit) else none
  | [] => none

/-- Match `SAMPLE_TIMESTAMP_PATTERN`
(`\d{4}/\d{2}/\d{2}\s*\d{2}:\d{2}:\d{2}.\d+`) at the head of the text,
returning the rest.  Every piece of the pattern is deterministic: the fixed
counts cannot backtrack and each greedy run is followed by a character it can
never absorb. -/
def tsMatchEnd (cs : Chars) : Option Chars := do
  let r ← takeDigits 4 cs
  let r ← expectChar '/' r
  let r ← takeDigits 2 r
  let r ← expectChar '/' r
  let r ← takeDigits 2 r
  let r := r.dropWhile pyIsSpace
  let r ← takeDigits 2 r
  let r ← expectChar ':' r
  let r ← takeDigits 2 r
  let r ← expectChar ':' r
  let r ← takeDigits 2 r
  let r ← anyNotNl r
  digitsPlus r

/-- `re.findall(SAMPLE_TIMESTAMP_PATTERN, line)[0]`: the leftmost match of
the timestamp pattern, as the matched substring. -/
def findTimestamp : Chars → Option Chars
  | [] => none
  | c :: rest =>
    match tsMatchEnd (c :: rest) with
    | some r => some ((c :: rest).take ((c :: rest).length - r.length))
    | none => findTimestamp rest

/-- `re.sub(r'Na ', 'NaN', line)`: replace every occurrence of the
three characters `Na ` by `NaN`. -/
def replaceNa : Chars → Chars
  | 'N' :: 'a' :: ' ' :: rest => 'N' :: 'a' :: 'N' :: replaceNa rest
  | c :: rest => c :: replaceNa rest
  | [] => []

/-- Deletion of every non-overlapping leftmost occurrence of `pat`, with a
structural fuel argument (one unit per character examined; a nonempty match
consumes at least one character, so `cs.length` fuel always suffices). -/
def removeAllSubGo (pat : Chars) : ℕ → Chars → Chars
  | 0, cs => cs
  | _ + 1, [] => []
  | fuel + 1, c :: rest =>
    if pat.length ≠ 0 ∧ leadsWith pat (c :: rest) then
      removeAllSubGo pat fuel (List.drop (pat.length - 1) rest)
    else
      c :: removeAllSubGo pat fuel rest

/-- `re.sub(timestamp, '', line)`: delete every non-overlapping leftmost
occurrence of the matched timestamp text (whose only metacharacter, the `.`
position, matches the very character it captured). -/
def removeAllSub (pat cs : Chars) : Chars :=
  removeAllSubGo pat cs.length cs

/-- Backtracking alternatives of a greedy character run (`p*` when
`allowZero`, else `p+`), longest first, each with the rest of the text. -/
def runAlts (p : Char → Bool) (allowZero : Bool) (cs : Chars) : List (Chars × Chars) :=
  let n := (cs.takeWhile p).length
  let ks := (List.range (n + 1)).reverse
  let ks := if allowZero then ks else ks.filter (fun k => k ≠ 0)
  ks.map (fun k => (cs.take k, cs.drop k))

/-- Alternatives of the decimal branch `-*\d+\.\d+` of a METBK field, in
regex backtracking order, each with its captured text. -/
def decAlts (cs : Chars) : List (Chars × Chars) :=
  (runAlts (fun c => c == '-') true cs).flatMap (fun m =>
    (runAlts Char.isDigit false m.2).flatMap (fun d1 =>
      match d1.2 with
      | '.' :: r3 =>
        (runAlts Char.isDigit false r3).map (fun d2 =>
          (m.1 ++ d1.1 ++ '.' :: d2.1, d2.2))
      | _ => []))

/-- Alternatives of one captured METBK field `(-*\d+\.\d+|NaN)`: the decimal
branch first, then the literal `NaN`. -/
def fieldAlts (cs : Chars) : List (Chars × Chars) :=
  decAlts cs ++
    (match cs with
     | 'N' :: 'a' :: 'N' :: r => [(['N', 'a', 'N'], r)]
     | _ => [])

/-- Alternatives of `n` further `\s*`-separated captured fields. -/
def restFields : ℕ → Chars → List (List Chars × Chars)
  | 0, cs => [([], cs)]
  | n + 1, cs =>
    (runAlts pyIsSpace true cs).flatMap (fun w =>
      (fieldAlts w.2).flatMap (fun f =>
        (restFields n f.2).map (fun t => (f.1 :: t.1, t.2))))

/-- Does the rest of the line satisfy `.*?\n` (some non-newline characters,
then a newline)? -/
def hasNewline (cs : Chars) : Bool :=
  cs.any (fun c => c == '\n')

/-- Match `METBK_DATA_PATTERN` (ten `\s*`-separated fields then `.*?\n`)
anchored at the head of the text: the ten captured fields of the first
backtracking alternative that succeeds. -/
def dataMatchAt (cs : Chars) : Option (List Chars) :=
  ((fieldAlts cs).flatMap (fun f =>
    (restFields 9 f.2).filterMap (fun t =>
      if hasNewline t.2 then some (f.1 :: t.1) else none))).head?

/-- `re.findall(METBK_DATA_PATTERN, line)[0]`: the captures of the leftmost
match of the ten-field grammar. -/
def findData : Chars → Option (List Chars)
  | [] => none
  | c :: rest =>
    match dataMatchAt (c :: rest) with
    | some caps => some caps
    | none => findData rest

/-- The row of ten `'NaN'` strings substituted for a malformed instrument
block. -/
def NaN10 : List String :=
  ["NaN", "NaN", "NaN", "NaN", "NaN", "NaN", "NaN", "NaN", "NaN", "NaN"]

/-- `float(line.split()[-1])` succeeds: the line has at least one whitespace
token and its last token parses as a Python float. -/
def lastTokenFloat (line : Chars) : Bool :=
  match (pySplit line).getLast? with
  | some tok => isPyFloat tok
  | none => false

/-- The per-line body of `METBK.parse_metbk` (lines 188-215): the 11-entry
row (timestamp then ten fields) appended for this line, or `none` when the
line contributes nothing.  The branches mirror the `try`/`except` flow:

* `float(line.split()[-1])` fails (or the line has no token): the `except`
  branch searches the *unmodified* line for a timestamp and substitutes ten
  `NaN` on success;
* the last token is float-like but the (Na-normalised) line has no timestamp:
  the `except` re-search on that same line also finds none, so the line is
  dropped;
* the ten-field grammar matches the line after the timestamp text has been
  deleted: the ten captures are taken;
* the grammar fails: the `except` branch searches the *timestamp-deleted*
  line, so only a second timestamp occurrence can rescue the line with ten
  `NaN`; otherwise it is dropped. -/
def parse_metbk_line (line : Chars) : Option (List String) :=
  if lastTokenFloat line then
    match findTimestamp (replaceNa line) with
    | none => none
    | some ts =>
      match findData (removeAllSub ts (replaceNa line)) with
      | some caps => some (String.mk ts :: caps.map String.mk)
      | none =>
        match findTimestamp (removeAllSub ts (replaceNa line)) with
        | some ts2 => some (String.mk ts2 :: NaN10)
        | none => none
  else
    match findTimestamp line with
    | some ts => some (String.mk ts :: NaN10)
    | none => none

/-- The `METBK_DATA` column accumulator (lines 129-141): eleven growing
lists keyed by the `METBK_DATA_INDEX` positions 0-10. -/
structure MetbkData where
  TIMESTAMP : List String
  BAROMETRIC_PRESSURE : List String
  RELATIVE_HUMIDITY : List String
  AIR_TEMPERATURE : List String
  LONGWAVE_IRRADIANCE : List String
  PRECIPITATION : List String
  SEA_SURFACE_TEMPERATURE : List String
  SEA_SURFACE_CONDUCTIVITY : List String
  SHORTWAVE_IRRADIANCE : List String
  WIND_EASTWARD : List String
  WIND_NORTHWARD : List String
deriving DecidableEq, Repr

/-- `METBK.__init__`: every column list empty. -/
def MetbkData.init : MetbkData :=
  ⟨[], [], [], [], [], [], [], [], [], [], []⟩

/-- Lines 218-221: append entry `raw_data[index]` of the 11-entry row to
every column list. -/
def appendRow (s : MetbkData) (raw : List String) : MetbkData where
  TIMESTAMP := s.TIMESTAMP ++ [raw.getD 0 ""]
  BAROMETRIC_PRESSURE := s.BAROMETRIC_PRESSURE ++ [raw.getD 1 ""]
  RELATIVE_HUMIDITY := s.RELATIVE_HUMIDITY ++ [raw.getD 2 ""]
  AIR_TEMPERATURE := s.AIR_TEMPERATURE ++ [raw.getD 3 ""]
  LONGWAVE_IRRADIANCE := s.LONGWAVE_IRRADIANCE ++ [raw.getD 4 ""]
  PRECIPITATION := s.PRECIPITATION ++ [raw.getD 5 ""]
  SEA_SURFACE_TEMPERATURE := s.SEA_SURFACE_TEMPERATURE ++ [raw.getD 6 ""]
  SEA_SURFACE_CONDUCTIVITY := s.SEA_SURFACE_CONDUCTIVITY ++ [raw.getD 7 ""]
  SHORTWAVE_IRRADIANCE := s.SHORTWAVE_IRRADIANCE ++ [raw.getD 8 ""]
  WIND_EASTWARD := s.WIND_EASTWARD ++ [raw.getD 9 ""]
  WIND_NORTHWARD := s.WIND_NORTHWARD ++ [raw.getD 10 ""]

/-- The per-line fold step of `parse_metbk`: append the parsed row of an
accepted line, ignore a dropped line. -/
def metbkStep (st : MetbkData) (l : Chars) : MetbkData :=
  match parse_metbk_line l with
  | none => st
  | some row => appendRow st row

/-- `METBK.parse_metbk`: fold the per-line body over the input lines,
appending one row per accepted line. -/
def parse_metbk (s : MetbkData) (lines : List Chars) : MetbkData :=
  lines.foldl metbkStep s

/-- All eleven column lists of the accumulator have the same length. -/
def MetbkData.rectangular (s : MetbkData) : Prop :=
  s.BAROMETRIC_PRESSURE.length = s.TIMESTAMP.length ∧
  s.RELATIVE_HUMIDITY.length = s.TIMESTAMP.length ∧
  s.AIR_TEMPERATURE.length = s.TIMESTAMP.length ∧
  s.LONGWAVE_IRRADIANCE.length = s.TIMESTAMP.length ∧
  s.PRECIPITATION.length = s.TIMESTAMP.length ∧
  s.SEA_SURFACE_TEMPERATURE.length = s.TIMESTAMP.length ∧
  s.SEA_SURFACE_CONDUCTIVITY.length = s.TIMESTAMP.length ∧
  s.SHORTWAVE_IRRADIANCE.length = s.TIMESTAMP.length ∧
  s.WIND_EASTWARD.length = s.TIMESTAMP.length ∧
  s.WIND_NORTHWARD.length = s.TIMESTAMP.length

/-! ## WAVSS parser (`WAVSS`, lines 299-403) -/

/-- `re.sub(r'\*.*', '', line, flags=re.DOTALL)`: everything from the first
`*` to the end of the line is discarded. -/
def stripStar (cs : Chars) : Chars :=
  cs.takeWhile (fun c => !(c == '*'))

/-- `re.split(r' \$|,', line)`: split on each leftmost occurrence of the two
characters ` $` or of `,`. -/
def splitWavssGo (cur : Chars) : Chars → List Chars
  | [] => [cur.reverse]
  | ' ' :: '$' :: rest => cur.reverse :: splitWavssGo [] rest
  | ',' :: rest => cur.reverse :: splitWavssGo [] rest
  | c :: rest => splitWavssGo (c :: cur) rest

/-- Split a WAVSS sentence into fields. -/
def splitWavss (cs : Chars) : List Chars := splitWavssGo [] cs

/-- The per-line test of `WAVSS.parse_wavss` (lines 370-392): only lines
containing `$TSPWA` are considered, the `*`-suffix is discarded, the line is
split, and only a 22-field split is usable. -/
def wavssFields (line : Chars) : Option (List Chars) :=
  if containsSub "$TSPWA".data line then
    let f := splitWavss (stripStar line)
    if f.length = 22 then some f else none
  else none

/-- The `WAVSS_DATA` column accumulator (lines 303-325).  A quantity cell is
`none` when the source stores `np.nan` there. -/
structure WavssData where
  TIMESTAMP : List String
  INSTRUMENT_DATE : List (Option String)
  INSTRUMENT_TIME : List (Option String)
  INSTRUMENT_SERIAL : List (Option String)
  BUOY_ID : List (Option String)
  LATITUDE : List (Option String)
  LONGITUDE : List (Option String)
  N_ZERO_CROSSINGS : List (Option String)
  AVERAGE_WAVE_HEIGHT : List (Option String)
  MEAN_SPECTRAL_PERIOD : List (Option String)
  MAXIMUM_WAVE_HEIGHT : List (Option String)
  SIGNIFICANT_WAVE_HEIGHT : List (Option String)
  SIGNIFICANT_PERIOD : List (Option String)
  AVERAGE_HEIGHT_10TH_HIGHEST : List (Option String)
  AVERAGE_PERIOD_10TH_HIGHEST : List (Option String)
  MEAN_WAVE_PERIOD : List (Option String)
  PEAK_PERIOD : List (Option String)
  TP5 : List (Option String)
  HMO : List (Option String)
  MEAN_DIRECTION : List (Option String)
  MEAN_SPREAD : List (Option String)
deriving DecidableEq, Repr

/-- `WAVSS.__init__`: every column list empty. -/
def WavssData.init : WavssData :=
  ⟨[], [], [], [], [], [], [], [], [], [], [], [], [], [], [], [], [], [], [], [], []⟩

/-- Lines 387-392: append the split fields at the `WAVSS_DATA_INDEX`
positions (0 and 2-21; the framing field 1 is skipped). -/
def appendWavss (s : WavssData) (f : List Chars) : WavssData where
  TIMESTAMP := s.TIMESTAMP ++ [String.mk (f.getD 0 [])]
  INSTRUMENT_DATE := s.INSTRUMENT_DATE ++ [some (String.mk (f.getD 2 []))]
  INSTRUMENT_TIME := s.INSTRUMENT_TIME ++ [some (String.mk (f.getD 3 []))]
  INSTRUMENT_SERIAL := s.INSTRUMENT_SERIAL ++ [some (String.mk (f.getD 4 []))]
  BUOY_ID := s.BUOY_ID ++ [some (String.mk (f.getD 5 []))]
  LATITUDE := s.LATITUDE ++ [some (String.mk (f.getD 6 []))]
  LONGITUDE := s.LONGITUDE ++ [some (String.mk (f.getD 7 []))]
  N_ZERO_CROSSINGS := s.N_ZERO_CROSSINGS ++ [some (String.mk (f.getD 8 []))]
  AVERAGE_WAVE_HEIGHT := s.AVERAGE_WAVE_HEIGHT ++ [some (String.mk (f.getD 9 []))]
  MEAN_SPECTRAL_PERIOD := s.MEAN_SPECTRAL_PERIOD ++ [some (String.mk (f.getD 10 []))]
  MAXIMUM_WAVE_HEIGHT := s.MAXIMUM_WAVE_HEIGHT ++ [some (String.mk (f.getD 11 []))]
  SIGNIFICANT_WAVE_HEIGHT := s.SIGNIFICANT_WAVE_HEIGHT ++ [some (String.mk (f.getD 12 []))]
  SIGNIFICANT_PERIOD := s.SIGNIFICANT_PERIOD ++ [some (String.mk (f.getD 13 []))]
  AVERAGE_HEIGHT_10TH_HIGHEST := s.AVERAGE_HEIGHT_10TH_HIGHEST ++ [some (String.mk (f.getD 14 []))]
  AVERAGE_PERIOD_10TH_HIGHEST := s.AVERAGE_PERIOD_10TH_HIGHEST ++ [some (String.mk (f.getD 15 []))]
  MEAN_WAVE_PERIOD := s.MEAN_WAVE_PERIOD ++ [some (String.mk (f.getD 16 []))]
  PEAK_PERIOD := s.PEAK_PERIOD ++ [some (String.mk (f.getD 17 []))]
  TP5 := s.TP5 ++ [some (String.mk (f.getD 18 []))]
  HMO := s.HMO ++ [some (String.mk (f.getD 19 []))]
  MEAN_DIRECTION := s.MEAN_DIRECTION ++ [some (String.mk (f.getD 20 []))]
  MEAN_SPREAD := s.MEAN_SPREAD ++ [some (String.mk (f.getD 21 []))]

/-- Lines 395-402: the two placeholder samples seeded when no usable line was
found; the timestamp list holds the look-back window start and now, every
quantity list holds two `np.nan`. -/
def placeholderWavss (startTime now : String) : WavssData where
  TIMESTAMP := [startTime, now]
  INSTRUMENT_DATE := [none, none]
  INSTRUMENT_TIME := [none, none]
  INSTRUMENT_SERIAL := [none, none]
  BUOY_ID := [none, none]
  LATITUDE := [none, none]
  LONGITUDE := [none, none]
  N_ZERO_CROSSINGS := [none, none]
  AVERAGE_WAVE_HEIGHT := [none, none]
  MEAN_SPECTRAL_PERIOD := [none, none]
  MAXIMUM_WAVE_HEIGHT := [none, none]
  SIGNIFICANT_WAVE_HEIGHT := [none, none]
  SIGNIFICANT_PERIOD := [none, none]
  AVERAGE_HEIGHT_10TH_HIGHEST := [none, none]
  AVERAGE_PERIOD_10TH_HIGHEST := [none, none]
  MEAN_WAVE_PERIOD := [none, none]
  PEAK_PERIOD := [none, none]
  TP5 := [none, none]
  HMO := [none, none]
  MEAN_DIRECTION := [none, none]
  MEAN_SPREAD := [none, none]

/-- The per-line fold step of `parse_wavss`: append the split fields of a
usable line, ignore every other line. -/
def wavssStep (st : WavssData) (l : Chars) : WavssData :=
  match wavssFields l with
  | none => st
  | some f => appendWavss st f

/-- `WAVSS.parse_wavss`: fold the usable lines into the accumulator; when no
timestamp was collected at all, replace every column list by the two-sample
placeholder. -/
def parse_wavss (startTime now : String) (s : WavssData) (lines : List Chars) :
    WavssData :=
  let s1 := lines.foldl wavssStep s
  if s1.TIMESTAMP.isEmpty then placeholderWavss startTime now else s1

/-- Number of usable WAVSS lines in an input. -/
def countUsableWavss (lines : List Chars) : ℕ :=
  lines.countP (fun l => (wavssFields l).isSome)

/-- Number of METBK lines that contribute a sample. -/
def countAcceptedMetbk (lines : List Chars) : ℕ :=
  lines.countP (fun l => (parse_metbk_line l).isSome)

/-- A well-formed METBK line: timestamp, the ten fields, trailing newline. -/
def metbkGoodLine : Chars :=
  "2021/01/01 00:00:00.000 1.0 2.0 3.0 4.0 5.0 6.0 7.0 8.0 9.0 10.0\n".data

/-- A METBK line with a valid timestamp, a float-parseable last token, but
only two data fields, so the ten-field grammar cannot match. -/
def metbkShortLine : Chars :=
  "2021/01/01 00:00:00.000 1.0 2.0\n".data

/-! ## Theorems -/

/-- Upper bound of the raw wind-direction formula: `arg ≤ pi` scales to 180. -/
theorem wind_dir_le (u v : ℝ) : calculate_wind_direction u v ≤ 180 := by
  unfold calculate_wind_direction
  have hk : (0 : ℝ) ≤ 180 / Real.pi := by positivity
  calc 180 / Real.pi * (Complex.ofReal (-v) + Complex.ofReal (-u) * Complex.I).arg
      ≤ 180 / Real.pi * Real.pi :=
        mul_le_mul_of_nonneg_left (Complex.arg_le_pi _) hk
    _ = 180 := div_mul_cancel₀ 180 Real.pi_ne_zero

/-- Lower bound of the raw wind-direction formula: `-pi < arg` scales to
a strict bound of -180. -/
theorem neg_lt_wind_dir (u v : ℝ) : -180 < calculate_wind_direction u v := by
  unfold calculate_wind_direction
  have hk : (0 : ℝ) < 180 / Real.pi := by positivity
  calc (-180 : ℝ) = 180 / Real.pi * (-Real.pi) := by
        rw [mul_neg, div_mul_cancel₀ 180 Real.pi_ne_zero]
    _ < 180 / Real.pi * (Complex.ofReal (-v) + Complex.ofReal (-u) * Complex.I).arg :=
        mul_lt_mul_of_pos_left (Complex.neg_pi_lt_arg _) hk

/-- Folding the WAVSS lines appends exactly one timestamp per usable line. -/
theorem wavss_fold_timestamp_length (lines : List Chars) :
    ∀ s : WavssData,
      ((lines.foldl wavssStep s).TIMESTAMP).length =
        s.TIMESTAMP.length + countUsableWavss lines := by
  induction lines with
  | nil =>
    intro s
    simp [countUsableWavss]
  | cons l ls ih =>
    intro s
    rw [List.foldl_cons, ih (wavssStep s l)]
    simp only [countUsableWavss, List.countP_cons]
    cases h : wavssFields l with
    | none =>
      simp [wavssStep, h, countUsableWavss]
    | some f =>
      simp [wavssStep, h, appendWavss, countUsableWavss]
      omega

/-- C7: when an input contains no usable `$TSPWA` line (none splitting into
exactly 22 fields), the parser replaces the series by exactly the two
placeholder samples at the window start and now with all quantity fields
missing; when at least one usable line exists, the result is just the fold of
the usable lines — no placeholder is added — and one sample per usable line
is kept. -/
theorem c7_wavss_placeholder (startTime now : String) (lines : List Chars) :
    (countUsableWavss lines = 0 →
      parse_wavss startTime now WavssData.init lines =
        placeholderWavss startTime now) ∧
    (0 < countUsableWavss lines →
      parse_wavss startTime now WavssData.init lines =
        lines.foldl wavssStep WavssData.init ∧
      (parse_wavss startTime now WavssData.init lines).TIMESTAMP.length =
        countUsableWavss lines) := by
  have hlen := wavss_fold_timestamp_length lines WavssData.init
  constructor
  · intro h0
    unfold parse_wavss
    have hz : ((lines.foldl wavssStep WavssData.init).TIMESTAMP).length = 0 := by
      rw [hlen]
      simp [WavssData.init, h0]
    have hemp : ((lines.foldl wavssStep WavssData.init).TIMESTAMP).isEmpty = true := by
      cases he : (lines.foldl wavssStep WavssData.init).TIMESTAMP with
      | nil => rfl
      | cons a as =>
        rw [he] at hz
        simp at hz
    simp [hemp]
  · intro hpos
    unfold parse_wavss
    have hz : ((lines.foldl wavssStep WavssData.init).TIMESTAMP).length ≠ 0 := by
      rw [hlen]
      simp only [WavssData.init, List.length_nil, Nat.zero_add]
      omega
    have hemp : ((lines.foldl wavssStep WavssData.init).TIMESTAMP).isEmpty = false := by
      cases he : (lines.foldl wavssStep WavssData.init).TIMESTAMP with
      | nil =>
        rw [he] at hz
        simp at hz
      | cons a as => rfl
    simp only [hemp, Bool.false_eq_true, if_false]
    refine ⟨by trivial, ?_⟩
    rw [hlen]
    simp [WavssData.init]

/-- C7 (witness): an input with one non-WAVSS line seeds the two-sample
placeholder. -/
theorem c7_witness :
    parse_wavss "2021/01/01 00:00:00" "2021/01/01 04:00:00" WavssData.init
      ["hello world\n".data] =
    placeholderWavss "2021/01/01 00:00:00" "2021/01/01 04:00:00" :=
  (c7_wavss_placeholder "2021/01/01 00:00:00" "2021/01/01 04:00:00"
    ["hello world\n".data]).1 (by decide)

/-- Folding the METBK lines appends exactly one entry to every column list
per accepted line. -/
theorem parse_metbk_lengths (lines : List Chars) :
    ∀ s : MetbkData,
      (parse_metbk s lines).TIMESTAMP.length =
        s.TIMESTAMP.length + countAcceptedMetbk lines ∧
      (parse_metbk s lines).BAROMETRIC_PRESSURE.length =
        s.BAROMETRIC_PRESSURE.length + countAcceptedMetbk lines ∧
      (parse_metbk s lines).RELATIVE_HUMIDITY.length =
        s.RELATIVE_HUMIDITY.length + countAcceptedMetbk lines ∧
      (parse_metbk s lines).AIR_TEMPERATURE.length =
        s.AIR_TEMPERATURE.length + countAcceptedMetbk lines ∧
      (parse_metbk s lines).LONGWAVE_IRRADIANCE.length =
        s.LONGWAVE_IRRADIANCE.length + countAcceptedMetbk lines ∧
      (parse_metbk s lines).PRECIPITATION.length =
        s.PRECIPITATION.length + countAcceptedMetbk lines ∧
      (parse_metbk s lines).SEA_SURFACE_TEMPERATURE.length =
        s.SEA_SURFACE_TEMPERATURE.length + countAcceptedMetbk lines ∧
      (parse_metbk s lines).SEA_SURFACE_CONDUCTIVITY.length =
        s.SEA_SURFACE_CONDUCTIVITY.length + countAcceptedMetbk lines ∧
      (parse_metbk s lines).SHORTWAVE_IRRADIANCE.length =
        s.SHORTWAVE_IRRADIANCE.length + countAcceptedMetbk lines ∧
      (parse_metbk s lines).WIND_EASTWARD.length =
        s.WIND_EASTWARD.length + countAcceptedMetbk lines ∧
      (parse_metbk s lines).WIND_NORTHWARD.length =
        s.WIND_NORTHWARD.length + countAcceptedMetbk lines := by
  induction lines with
  | nil =>
    intro s
    simp [parse_metbk, countAcceptedMetbk]
  | cons l ls ih =>
    intro s
    have h2 := ih (metbkStep s l)
    simp only [parse_metbk] at h2 ⊢
    rw [List.foldl_cons]
    simp only [countAcceptedMetbk, List.countP_cons] at h2 ⊢
    cases h : parse_metbk_line l with
    | none =>
      simp only [metbkStep, h] at h2 ⊢
      simp only [Option.isSome_none, Bool.false_eq_true, if_false, Nat.add_zero]
      obtain ⟨a1, a2, a3, a4, a5, a6, a7, a8, a9, a10, a11⟩ := h2
      refine ⟨?_, ?_, ?_, ?_, ?_, ?_, ?_, ?_, ?_, ?_, ?_⟩ <;> omega
    | some row =>
      simp only [metbkStep, h] at h2 ⊢
      simp only [Option.isSome_some, if_true]
      obtain ⟨a1, a2, a3, a4, a5, a6, a7, a8, a9, a10, a11⟩ := h2
      have b1 : (appendRow s row).TIMESTAMP.length = s.TIMESTAMP.length + 1 := by
        simp [appendRow]
      have b2 : (appendRow s row).BAROMETRIC_PRESSURE.length =
          s.BAROMETRIC_PRESSURE.length + 1 := by
        simp [appendRow]
      have b3 : (appendRow s row).RELATIVE_HUMIDITY.length =
          s.RELATIVE_HUMIDITY.length + 1 := by
        simp [appendRow]
      have b4 : (appendRow s row).AIR_TEMPERATURE.length =
          s.AIR_TEMPERATURE.length + 1 := by
        simp [appendRow]
      have b5 : (appendRow s row).LONGWAVE_IRRADIANCE.length =
          s.LONGWAVE_IRRADIANCE.length + 1 := by
        simp [appendRow]
      have b6 : (appendRow s row).PRECIPITATION.length =
          s.PRECIPITATION.length + 1 := by
        simp [appendRow]
      have b7 : (appendRow s row).SEA_SURFACE_TEMPERATURE.length =
          s.SEA_SURFACE_TEMPERATURE.length + 1 := by
        simp [appendRow]
      have b8 : (appendRow s row).SEA_SURFACE_CONDUCTIVITY.length =
          s.SEA_SURFACE_CONDUCTIVITY.length + 1 := by
        simp [appendRow]
      have b9 : (appendRow s row).SHORTWAVE_IRRADIANCE.length =
          s.SHORTWAVE_IRRADIANCE.length + 1 := by
        simp [appendRow]
      have b10 : (appendRow s row).WIND_EASTWARD.length =
          s.WIND_EASTWARD.length + 1 := by
        simp [appendRow]
      have b11 : (appendRow s row).WIND_NORTHWARD.length =
          s.WIND_NORTHWARD.length + 1 := by
        simp [appendRow]
      refine ⟨?_, ?_, ?_, ?_, ?_, ?_, ?_, ?_, ?_, ?_, ?_⟩ <;> omega

/-- C10: over any sequence of parsed line lists, every accepted line appends
exactly one element to each of the eleven `METBK_DATA` lists and a rejected
line appends to none, so each list grows by exactly the number of accepted
lines; consequently the accumulator stays rectangular from any rectangular
state (in particular from the empty initial state). -/
theorem c10_rectangular :
    (∀ (s : MetbkData) (lines : List Chars),
      (parse_metbk s lines).TIMESTAMP.length =
        s.TIMESTAMP.length + countAcceptedMetbk lines ∧
      (parse_metbk s lines).BAROMETRIC_PRESSURE.length =
        s.BAROMETRIC_PRESSURE.length + countAcceptedMetbk lines ∧
      (parse_metbk s lines).RELATIVE_HUMIDITY.length =
        s.RELATIVE_HUMIDITY.length + countAcceptedMetbk lines ∧
      (parse_metbk s lines).AIR_TEMPERATURE.length =
        s.AIR_TEMPERATURE.length + countAcceptedMetbk lines ∧
      (parse_metbk s lines).LONGWAVE_IRRADIANCE.length =
        s.LONGWAVE_IRRADIANCE.length + countAcceptedMetbk lines ∧
      (parse_metbk s lines).PRECIPITATION.length =
        s.PRECIPITATION.length + countAcceptedMetbk lines ∧
      (parse_metbk s lines).SEA_SURFACE_TEMPERATURE.length =
        s.SEA_SURFACE_TEMPERATURE.length + countAcceptedMetbk lines ∧
      (parse_metbk s lines).SEA_SURFACE_CONDUCTIVITY.length =
        s.SEA_SURFACE_CONDUCTIVITY.length + countAcceptedMetbk lines ∧
      (parse_metbk s lines).SHORTWAVE_IRRADIANCE.length =
        s.SHORTWAVE_IRRADIANCE.length + countAcceptedMetbk lines ∧
      (parse_metbk s lines).WIND_EASTWARD.length =
        s.WIND_EASTWARD.length + countAcceptedMetbk lines ∧
      (parse_metbk s lines).WIND_NORTHWARD.length =
        s.WIND_NORTHWARD.length + countAcceptedMetbk lines) ∧
    (∀ (s : MetbkData) (lines : List Chars),
      s.rectangular → (parse_metbk s lines).rectangular) := by
  constructor
  · intro s lines
    exact parse_metbk_lengths lines s
  · intro s lines hrect
    obtain ⟨a1, a2, a3, a4, a5, a6, a7, a8, a9, a10, a11⟩ := parse_metbk_lengths lines s
    obtain ⟨r1, r2, r3, r4, r5, r6, r7, r8, r9, r10⟩ := hrect
    exact ⟨by omega, by omega, by omega, by omega, by omega, by omega, by omega,
      by omega, by omega, by omega⟩

/-- C10 (witness): rectangularity is preserved from the fresh accumulator
through a parse of one well-formed line. -/
theorem c10_witness :
    MetbkData.rectangular (parse_metbk MetbkData.init [metbkGoodLine]) :=
  c10_rectangular.2 MetbkData.init [metbkGoodLine]
    ⟨rfl, rfl, rfl, rfl, rfl, rfl, rfl, rfl, rfl, rfl⟩

/-- C6 (counterexample): a line with a valid timestamp, a float-parseable
final token and a malformed instrument block (only two data fields, so the
ten-field grammar fails) does not yield a ten-`NaN` sample as the claim
requires: since the timestamp was already deleted from the line, the
`except` branch finds no timestamp and the line contributes nothing. -/
theorem c6_counterexample :
    lastTokenFloat metbkShortLine = true ∧
    findTimestamp metbkShortLine = some "2021/01/01 00:00:00.000".data ∧
    findData (removeAllSub "2021/01/01 00:00:00.000".data
      (replaceNa metbkShortLine)) = none ∧
    parse_metbk_line metbkShortLine = none := by
  refine ⟨by decide, by decide, by decide, by decide⟩

/-- C6 (amended): per input line, with `ts` the leftmost timestamp match:
a line whose last whitespace token parses as a float and whose ten-field
grammar matches the Na-normalised, timestamp-deleted line yields that
timestamp and the ten captures; a line whose last token does not parse as a
float (or with no token) but which has a timestamp yields the timestamp and
ten `NaN`; a timestamped float-ending line whose grammar fails yields
nothing unless a second timestamp survives the deletion; and a line with no
timestamp yields nothing. -/
theorem c6_parse_metbk_line (l : Chars) :
    (∀ ts caps, lastTokenFloat l = true →
      findTimestamp (replaceNa l) = some ts →
      findData (removeAllSub ts (replaceNa l)) = some caps →
      parse_metbk_line l = some (String.mk ts :: caps.map String.mk)) ∧
    (∀ ts, lastTokenFloat l = false →
      findTimestamp l = some ts →
      parse_metbk_line l = some (String.mk ts :: NaN10)) ∧
    (lastTokenFloat l = false → findTimestamp l = none →
      parse_metbk_line l = none) ∧
    (lastTokenFloat l = true → findTimestamp (replaceNa l) = none →
      parse_metbk_line l = none) ∧
    (∀ ts, lastTokenFloat l = true →
      findTimestamp (replaceNa l) = some ts →
      findData (removeAllSub ts (replaceNa l)) = none →
      findTimestamp (removeAllSub ts (replaceNa l)) = none →
      parse_metbk_line l = none) ∧
    (∀ ts ts2, lastTokenFloat l = true →
      findTimestamp (replaceNa l) = some ts →
      findData (removeAllSub ts (replaceNa l)) = none →
      findTimestamp (removeAllSub ts (replaceNa l)) = some ts2 →
      parse_metbk_line l = some (String.mk ts2 :: NaN10)) := by
  refine ⟨?_, ?_, ?_, ?_, ?_, ?_⟩
  · intro ts caps h1 h2 h3
    simp [parse_metbk_line, h1, h2, h3]
  · intro ts h1 h2
    simp [parse_metbk_line, h1, h2]
  · intro h1 h2
    simp [parse_metbk_line, h1, h2]
  · intro h1 h2
    simp [parse_metbk_line, h1, h2]
  · intro ts h1 h2 h3 h4
    simp [parse_metbk_line, h1, h2, h3, h4]
  · intro ts ts2 h1 h2 h3 h4
    simp [parse_metbk_line, h1, h2, h3, h4]

/-- C6 (witness): the amended per-line law at a well-formed METBK line. -/
theorem c6_witness :
    parse_metbk_line metbkGoodLine =
      some (String.mk "2021/01/01 00:00:00.000".data ::
        (["1.0".data, "2.0".data, "3.0".data, "4.0".data, "5.0".data,
          "6.0".data, "7.0".data, "8.0".data, "9.0".data, "10.0".data].map
          String.mk)) :=
  (c6_parse_metbk_line metbkGoodLine).1 "2021/01/01 00:00:00.000".data
    ["1.0".data, "2.0".data, "3.0".data, "4.0".data, "5.0".data,
     "6.0".data, "7.0".data, "8.0".data, "9.0".data, "10.0".data]
    (by decide) (by decide) (by decide)

/-- A timestamp falls in pandas' bin `b` exactly when it lies in the
half-open interval `[b*w, (b+1)*w)`. -/
theorem div_bin_iff (t w b : ℕ) (hw : 0 < w) :
    t / w = b ↔ b * w ≤ t ∧ t < (b + 1) * w := by
  constructor
  · rintro rfl
    refine ⟨Nat.div_mul_le_self t w, ?_⟩
    have h1 := Nat.div_add_mod t w
    have h2 := Nat.mod_lt t hw
    have h3 : t < w * (t / w) + w := by linarith
    have h4 : (t / w + 1) * w = w * (t / w) + w := by ring
    rw [h4]
    exact h3
  · rintro ⟨h1, h2⟩
    exact Nat.div_eq_of_lt_le h1 h2

/-- C4: the value a bin carries after `resample('10T').mean()` is exactly the
arithmetic mean of the non-missing sample values whose timestamp falls in
`[b*w, (b+1)*w)` — missing samples are excluded, not treated as zero — and a
bin whose samples are all missing (or empty) carries `none`, never zero; in
particular `[1.0, missing, 3.0]` in one bin averages to `2.0`, and an
all-missing bin stays missing. -/
theorem c4_bin_mean :
    (∀ (w b : ℕ) (samples : List (ℕ × Option ℚ)), 0 < w →
      colAgg w b samples = specBinMean w b samples) ∧
    colAgg 600 0 [(0, some 1), (60, none), (120, some 3)] = some 2 ∧
    colAgg 600 0 [(0, none), (60, none)] = none := by
  refine ⟨?_, by norm_num [colAgg, List.filterMap_cons], by norm_num [colAgg, List.filterMap_cons]⟩
  intro w b samples hw
  have hfilter : samples.filter (fun s => s.1 / w = b) =
      samples.filter (fun s => b * w ≤ s.1 ∧ s.1 < (b + 1) * w) :=
    List.filter_congr (fun s _ => decide_eq_decide.mpr (div_bin_iff s.1 w b hw))
  simp only [colAgg, specBinMean, hfilter]

/-- C4 (witness): the general bin-mean identity applied at width 600, bin 0,
and the spec's example samples. -/
theorem c4_witness :
    0 < 600 ∧
    colAgg 600 0 [(0, some 1), (60, none), (120, some 3)] =
      specBinMean 600 0 [(0, some 1), (60, none), (120, some 3)] :=
  ⟨by decide, c4_bin_mean.1 600 0 [(0, some 1), (60, none), (120, some 3)] (by decide)⟩

/-- Looking up any column of the all-missing seed row yields a missing cell. -/
theorem getCol_map_none (cols : List String) (c : String) :
    getCol (cols.map (fun c => (c, (none : Option ℚ)))) c = none := by
  induction cols with
  | nil => rfl
  | cons a rest ih =>
    by_cases hac : a = c
    · simp [getCol, lookupCol, hac]
    · simp only [getCol, List.map_cons, lookupCol, hac, if_false] at ih ⊢
      exact ih

/-- A column whose samples are all missing aggregates to a missing value in
every bin. -/
theorem colAgg_of_all_none (w b : ℕ) (samples : List (ℕ × Option ℚ))
    (h : ∀ s ∈ samples, s.2 = none) : colAgg w b samples = none := by
  have hnil : (samples.filter (fun s => s.1 / w = b)).filterMap (fun s => s.2) = [] := by
    rw [List.filterMap_eq_nil_iff]
    intro s hs
    exact h s (List.mem_of_mem_filter hs)
  simp [colAgg, hnil]

/-- C2 (counterexample): with the main script's 4-hour look-back window
(start 0, now 14400 seconds) the substituted "no data" table has 25 rows —
one per 10-minute bin — not exactly two rows. -/
theorem c2_counterexample :
    (create_empty_dataset 0 14400 ["METBK1 BAROMETRIC_PRESSURE"]).length = 25 ∧
    ¬ (create_empty_dataset 0 14400 ["METBK1 BAROMETRIC_PRESSURE"]).length = 2 := by
  constructor
  · rfl
  · intro h
    rw [show (create_empty_dataset 0 14400 ["METBK1 BAROMETRIC_PRESSURE"]).length = 25 from rfl] at h
    exact absurd h (by decide)

/-- C2 (amended): when the windowed merge is empty the substituted synthetic
table consists of one all-missing row per 10-minute bin from the bin of the
look-back start to the bin of now (at least one row, 25 for the script's
4-hour window), so the Encoder always receives at least one interval. -/
theorem c2_empty_dataset_rows (startTime now : ℕ) (cols : List String)
    (h : startTime ≤ now) :
    (create_empty_dataset startTime now cols).length = now / 600 - startTime / 600 + 1 ∧
    1 ≤ (create_empty_dataset startTime now cols).length ∧
    (create_empty_dataset startTime now cols).map (fun p => p.1) =
      (List.range (now / 600 - startTime / 600 + 1)).map
        (fun i => (startTime / 600 + i) * 600) ∧
    (∀ p ∈ create_empty_dataset startTime now cols, ∀ e ∈ p.2, e.2 = none) := by
  have hmin : min startTime now = startTime := Nat.min_eq_left h
  have hmax : max startTime now = now := Nat.max_eq_right h
  have hidx : resampleIndex 600
      (([(startTime, cols.map (fun c => (c, (none : Option ℚ)))),
         (now, cols.map (fun c => (c, (none : Option ℚ))))] : List (ℕ × Row)).map
        (fun r => r.1)) =
      (List.range (now / 600 - startTime / 600 + 1)).map
        (fun i => (startTime / 600 + i) * 600) := by
    simp [resampleIndex, hmin, hmax]
  refine ⟨?_, ?_, ?_, ?_⟩
  · simp only [create_empty_dataset, resampleFrame, hidx, List.length_map,
      List.length_range]
  · simp only [create_empty_dataset, resampleFrame, hidx, List.length_map,
      List.length_range]
    omega
  · simp only [create_empty_dataset, resampleFrame, hidx, List.map_map]
    rfl
  · intro p hp e he
    simp only [create_empty_dataset, resampleFrame, List.mem_map] at hp
    obtain ⟨bt, _, rfl⟩ := hp
    simp only [List.mem_map] at he
    obtain ⟨c, _, rfl⟩ := he
    apply colAgg_of_all_none
    intro s hs
    simp only [List.map_cons, List.map_nil, List.mem_cons, List.not_mem_nil,
      or_false] at hs
    rcases hs with rfl | rfl
    · exact getCol_map_none cols c
    · exact getCol_map_none cols c

/-- C2 (witness): the amended row-count law at the script's concrete 4-hour
window. -/
theorem c2_witness :
    (create_empty_dataset 0 14400 ["WAVSS HMO"]).length = 14400 / 600 - 0 / 600 + 1 :=
  (c2_empty_dataset_rows 0 14400 ["WAVSS HMO"] (by decide)).1

/-- Appending on the right preserves the first character of a string. -/
theorem head_of_append (a b : String) (c : Char) (h : a.data.head? = some c) :
    (a ++ b).data.head? = some c := by
  have hd : (a ++ b).data = a.data ++ b.data := rfl
  rw [hd]
  cases ha : a.data with
  | nil =>
    rw [ha] at h
    simp at h
  | cons x xs =>
    rw [ha] at h
    simpa using h

/-- A string that starts with a blank is not the `<message>` opener. -/
theorem ne_msg_of_head (s : String) (h : s.data.head? = some ' ') :
    s ≠ "<message>" := by
  intro he
  rw [he] at h
  exact absurd h (by decide)

/-- Indented fixed lines of a message block never equal the opener. -/
theorem two_append_ne (p m s : String) (hp : p.data.head? = some ' ') :
    (p ++ m ++ s) ≠ "<message>" :=
  ne_msg_of_head _ (head_of_append _ _ _ (head_of_append _ _ _ hp))

/-- Indented tag lines of a message block never equal the opener. -/
theorem tag_line_ne (t v : String) :
    ("    <" ++ t ++ ">" ++ v ++ "</" ++ t ++ ">") ≠ "<message>" :=
  ne_msg_of_head _ (head_of_append _ _ _ (head_of_append _ _ _ (head_of_append _ _ _
    (head_of_append _ _ _ (head_of_append _ _ _ (head_of_append _ _ _ rfl))))))

/-- One message block contains exactly one `<message>` line. -/
theorem filter_messageLines (WMO : String) (dm : List (String × ℚ))
    (nm : List (String × String)) (t : ℕ) (row : Row) :
    (messageLines WMO dm nm t row).filter (fun l => l = "<message>") = ["<message>"] := by
  unfold messageLines
  rw [List.filter_append, List.filter_append]
  have hmap : (dm.map (fun td =>
      "    <" ++ td.1 ++ ">" ++ toString (tagValue nm row td.1 td.2)
        ++ "</" ++ td.1 ++ ">")).filter (fun l => l = "<message>") = [] := by
    rw [List.filter_eq_nil_iff]
    intro a ha
    obtain ⟨td, _, rfl⟩ := List.mem_map.mp ha
    simp only [decide_eq_true_eq]
    exact tag_line_ne _ _
  rw [hmap,
    List.filter_cons_of_pos (by decide),
    List.filter_cons_of_neg (by simp only [decide_eq_true_eq]; exact two_append_ne _ _ _ rfl),
    List.filter_cons_of_neg (by simp only [decide_eq_true_eq]; exact two_append_ne _ _ _ rfl),
    List.filter_cons_of_neg (by decide),
    List.filter_cons_of_neg (by decide),
    List.filter_cons_of_neg (by decide),
    List.filter_cons_of_neg (by decide),
    List.filter_cons_of_neg (by decide)]
  simp

/-- The encoded body carries one `<message>` line per table row. -/
theorem flatMap_message_count (WMO : String) (dm : List (String × ℚ))
    (nm : List (String × String)) (data : Frame) :
    ((data.flatMap (fun p => messageLines WMO dm nm p.1 p.2)).filter
      (fun l => l = "<message>")).length = data.length := by
  induction data with
  | nil => simp
  | cons p rest ih =>
    rw [List.flatMap_cons, List.filter_append, List.length_append,
      filter_messageLines, ih]
    simp [Nat.add_comm]

/-- C3 (counterexample): a windowed table consisting of a single
entirely-missing row is not dropped: the encoder emits one message for it,
not zero. -/
theorem c3_counterexample :
    getCol [("METBK1 BAROMETRIC_PRESSURE", (none : Option ℚ))]
      "METBK1 BAROMETRIC_PRESSURE" = none ∧
    countMessages (parse_data_to_xml "44078" [("baro1", -9999)]
      [("baro1", "METBK1 BAROMETRIC_PRESSURE")]
      [(0, [("METBK1 BAROMETRIC_PRESSURE", none)])]) = 1 ∧
    ¬ countMessages (parse_data_to_xml "44078" [("baro1", -9999)]
      [("baro1", "METBK1 BAROMETRIC_PRESSURE")]
      [(0, [("METBK1 BAROMETRIC_PRESSURE", none)])]) = 0 := by
  have h1 : countMessages (parse_data_to_xml "44078" [("baro1", -9999)]
      [("baro1", "METBK1 BAROMETRIC_PRESSURE")]
      [(0, [("METBK1 BAROMETRIC_PRESSURE", none)])]) = 1 := by
    unfold countMessages parse_data_to_xml
    rw [List.filter_cons_of_neg (by decide)]
    exact flatMap_message_count "44078" [("baro1", -9999)]
      [("baro1", "METBK1 BAROMETRIC_PRESSURE")]
      [(0, [("METBK1 BAROMETRIC_PRESSURE", none)])]
  refine ⟨rfl, h1, ?_⟩
  rw [h1]
  exact one_ne_zero

/-- C3 (amended): no row is dropped before encoding; the Bulletin contains
exactly one message per windowed row, entirely-missing rows included. -/
theorem c3_one_message_per_row (WMO : String) (dm : List (String × ℚ))
    (nm : List (String × String)) (data : Frame) :
    countMessages (parse_data_to_xml WMO dm nm data) = data.length := by
  unfold countMessages parse_data_to_xml
  rw [List.filter_cons_of_neg (by decide)]
  exact flatMap_message_count WMO dm nm data

/-- C9: for every encoded row and configured tag, the emitted value is the
mapped column's value when that column exists in the row with a non-missing
value; otherwise — tag unmapped, column absent, or value missing — it is the
tag's configured default, and the encoder is total (no error is raised). -/
theorem c9_encoder_default (nm : List (String × String)) (row : Row)
    (tag : String) (d : ℚ) :
    (∀ col v, List.lookup tag nm = some col → lookupCol row col = some (some v) →
      tagValue nm row tag d = v) ∧
    (List.lookup tag nm = none → tagValue nm row tag d = d) ∧
    (∀ col, List.lookup tag nm = some col → lookupCol row col = none →
      tagValue nm row tag d = d) ∧
    (∀ col, List.lookup tag nm = some col → lookupCol row col = some none →
      tagValue nm row tag d = d) := by
  refine ⟨?_, ?_, ?_, ?_⟩
  · intro col v h1 h2
    simp [tagValue, h1, h2]
  · intro h1
    simp [tagValue, h1]
  · intro col h1 h2
    simp [tagValue, h1, h2]
  · intro col h1 h2
    simp [tagValue, h1, h2]

/-- C9 (witness): a tag whose source column is absent from the row emits the
configured `-9999` default. -/
theorem c9_witness :
    tagValue [("rrh", "METBK1 RELATIVE_HUMIDITY")] [("OTHER", some 3)] "rrh" (-9999) =
      -9999 :=
  (c9_encoder_default [("rrh", "METBK1 RELATIVE_HUMIDITY")] [("OTHER", some 3)]
      "rrh" (-9999)).2.2.1 "METBK1 RELATIVE_HUMIDITY" rfl rfl

/-- Reading back the column just assigned yields the assigned value. -/
theorem getCol_setCol_same (row : Row) (c : String) (v : Option ℚ) :
    getCol (setCol row c v) c = v := by
  induction row with
  | nil => simp [setCol, getCol, lookupCol]
  | cons e rest ih =>
    by_cases h : e.1 = c
    · simp [setCol, h, getCol, lookupCol]
    · simp only [setCol, h, if_false]
      simp only [getCol, lookupCol, h, if_false] at ih ⊢
      exact ih

/-- Assigning one column leaves every other column unchanged. -/
theorem getCol_setCol_ne (row : Row) {c d : String} (v : Option ℚ) (h : c ≠ d) :
    getCol (setCol row c v) d = getCol row d := by
  induction row with
  | nil => simp [setCol, getCol, lookupCol, h]
  | cons e rest ih =>
    by_cases he : e.1 = c
    · simp only [setCol, he, if_true]
      simp only [getCol, lookupCol, h, if_false, he]
      exact ih
    · simp only [setCol, he, if_false]
      by_cases hd : e.1 = d
      · simp [getCol, lookupCol, hd]
      · simp only [getCol, lookupCol, hd, if_false] at ih ⊢
        exact ih

/-- C8: after the merge's redundancy fallback, for each of relative humidity,
longwave irradiance and shortwave irradiance: a missing primary (METBK1) cell
takes the secondary (METBK2) cell of the same bin — so it stays missing
exactly when the secondary is missing too — a present primary cell is kept,
and the secondary columns are never modified. -/
theorem c8_fallback (row : Row) :
    (getCol (fallbackRow row) "METBK2 RELATIVE_HUMIDITY" =
        getCol row "METBK2 RELATIVE_HUMIDITY" ∧
      getCol (fallbackRow row) "METBK2 LONGWAVE_IRRADIANCE" =
        getCol row "METBK2 LONGWAVE_IRRADIANCE" ∧
      getCol (fallbackRow row) "METBK2 SHORTWAVE_IRRADIANCE" =
        getCol row "METBK2 SHORTWAVE_IRRADIANCE") ∧
    (getCol row "METBK1 RELATIVE_HUMIDITY" = none →
      getCol (fallbackRow row) "METBK1 RELATIVE_HUMIDITY" =
        getCol row "METBK2 RELATIVE_HUMIDITY") ∧
    (getCol row "METBK1 LONGWAVE_IRRADIANCE" = none →
      getCol (fallbackRow row) "METBK1 LONGWAVE_IRRADIANCE" =
        getCol row "METBK2 LONGWAVE_IRRADIANCE") ∧
    (getCol row "METBK1 SHORTWAVE_IRRADIANCE" = none →
      getCol (fallbackRow row) "METBK1 SHORTWAVE_IRRADIANCE" =
        getCol row "METBK2 SHORTWAVE_IRRADIANCE") ∧
    (∀ v, getCol row "METBK1 RELATIVE_HUMIDITY" = some v →
      getCol (fallbackRow row) "METBK1 RELATIVE_HUMIDITY" = some v) ∧
    (∀ v, getCol row "METBK1 LONGWAVE_IRRADIANCE" = some v →
      getCol (fallbackRow row) "METBK1 LONGWAVE_IRRADIANCE" = some v) ∧
    (∀ v, getCol row "METBK1 SHORTWAVE_IRRADIANCE" = some v →
      getCol (fallbackRow row) "METBK1 SHORTWAVE_IRRADIANCE" = some v) := by
  have n1 : ("METBK1 RELATIVE_HUMIDITY" : String) ≠ "METBK2 RELATIVE_HUMIDITY" := by decide
  have n2 : ("METBK1 RELATIVE_HUMIDITY" : String) ≠ "METBK2 LONGWAVE_IRRADIANCE" := by decide
  have n3 : ("METBK1 RELATIVE_HUMIDITY" : String) ≠ "METBK2 SHORTWAVE_IRRADIANCE" := by decide
  have n4 : ("METBK1 LONGWAVE_IRRADIANCE" : String) ≠ "METBK2 RELATIVE_HUMIDITY" := by decide
  have n5 : ("METBK1 LONGWAVE_IRRADIANCE" : String) ≠ "METBK2 LONGWAVE_IRRADIANCE" := by decide
  have n6 : ("METBK1 LONGWAVE_IRRADIANCE" : String) ≠ "METBK2 SHORTWAVE_IRRADIANCE" := by decide
  have n7 : ("METBK1 SHORTWAVE_IRRADIANCE" : String) ≠ "METBK2 RELATIVE_HUMIDITY" := by decide
  have n8 : ("METBK1 SHORTWAVE_IRRADIANCE" : String) ≠ "METBK2 LONGWAVE_IRRADIANCE" := by decide
  have n9 : ("METBK1 SHORTWAVE_IRRADIANCE" : String) ≠ "METBK2 SHORTWAVE_IRRADIANCE" := by decide
  have n10 : ("METBK1 LONGWAVE_IRRADIANCE" : String) ≠ "METBK1 RELATIVE_HUMIDITY" := by decide
  have n11 : ("METBK1 SHORTWAVE_IRRADIANCE" : String) ≠ "METBK1 RELATIVE_HUMIDITY" := by decide
  have n12 : ("METBK1 RELATIVE_HUMIDITY" : String) ≠ "METBK1 LONGWAVE_IRRADIANCE" := by decide
  have n13 : ("METBK1 SHORTWAVE_IRRADIANCE" : String) ≠ "METBK1 LONGWAVE_IRRADIANCE" := by decide
  have n14 : ("METBK1 LONGWAVE_IRRADIANCE" : String) ≠ "METBK1 SHORTWAVE_IRRADIANCE" := by decide
  have n15 : ("METBK1 RELATIVE_HUMIDITY" : String) ≠ "METBK1 SHORTWAVE_IRRADIANCE" := by decide
  simp only [fallbackRow, fillCol, getCol_setCol_same, getCol_setCol_ne _ _ n1,
    getCol_setCol_ne _ _ n2, getCol_setCol_ne _ _ n3, getCol_setCol_ne _ _ n4,
    getCol_setCol_ne _ _ n5, getCol_setCol_ne _ _ n6, getCol_setCol_ne _ _ n7,
    getCol_setCol_ne _ _ n8, getCol_setCol_ne _ _ n9, getCol_setCol_ne _ _ n10,
    getCol_setCol_ne _ _ n11, getCol_setCol_ne _ _ n12, getCol_setCol_ne _ _ n13,
    getCol_setCol_ne _ _ n14, getCol_setCol_ne _ _ n15]
  refine ⟨⟨trivial, trivial, trivial⟩, ?_, ?_, ?_, ?_, ?_, ?_⟩
  · intro h
    rw [h]
    rfl
  · intro h
    rw [h]
    rfl
  · intro h
    rw [h]
    rfl
  · intro v h
    rw [h]
    rfl
  · intro v h
    rw [h]
    rfl
  · intro v h
    rw [h]
    rfl

/-- C8 (witness): a bin whose primary humidity is missing while the secondary
reports 55 is filled with 55, at a concrete merged row. -/
theorem c8_witness :
    getCol (fallbackRow
      [("METBK1 RELATIVE_HUMIDITY", none), ("METBK2 RELATIVE_HUMIDITY", some 55)])
      "METBK1 RELATIVE_HUMIDITY" =
    getCol
      [("METBK1 RELATIVE_HUMIDITY", none), ("METBK2 RELATIVE_HUMIDITY", some 55)]
      "METBK2 RELATIVE_HUMIDITY" :=
  (c8_fallback
    [("METBK1 RELATIVE_HUMIDITY", none), ("METBK2 RELATIVE_HUMIDITY", some 55)]).2.1
    rfl

/-- C1 (counterexample): the claim says sea-level-adjusted pressure is
monotonically decreasing in the height argument; at raw pressure 1000 and
temperature 0 the adjusted pressure strictly increases when the height grows
from 0 to 1, so it is not decreasing in height. -/
theorem c1_counterexample :
    adjust_pressure_to_sea_level 1000 0 0 < adjust_pressure_to_sea_level 1000 0 1 := by
  unfold adjust_pressure_to_sea_level
  have hc : (0 : ℝ) < ((0 : ℝ) + 273.15) * 29.263 := by norm_num
  have hep : 0 < Real.exp (-1 / (((0 : ℝ) + 273.15) * 29.263)) := Real.exp_pos _
  have he : Real.exp (-1 / (((0 : ℝ) + 273.15) * 29.263)) < 1 := by
    rw [show (1 : ℝ) = Real.exp 0 by rw [Real.exp_zero]]
    exact Real.exp_lt_exp.mpr (div_neg_of_neg_of_pos (by norm_num) hc)
  have h0 : -(0 : ℝ) / (((0 : ℝ) + 273.15) * 29.263) = 0 := by norm_num
  rw [h0, Real.exp_zero, div_one, lt_div_iff₀ hep]
  nlinarith

/-- C1 (amended): for all temperatures and heights the adjusted pressure is
strictly increasing in the raw pressure; and for positive raw pressure and
non-negative temperature it is strictly *increasing* (not decreasing) in the
height argument, holding temperature fixed. -/
theorem c1_slp_monotone :
    (∀ temp height p1 p2 : ℝ, p1 < p2 →
      adjust_pressure_to_sea_level p1 temp height <
        adjust_pressure_to_sea_level p2 temp height) ∧
    (∀ pres temp h1 h2 : ℝ, 0 < pres → 0 ≤ temp → h1 < h2 →
      adjust_pressure_to_sea_level pres temp h1 <
        adjust_pressure_to_sea_level pres temp h2) := by
  constructor
  · intro temp height p1 p2 hp
    unfold adjust_pressure_to_sea_level
    exact (div_lt_div_iff_of_pos_right (Real.exp_pos _)).mpr hp
  · intro pres temp h1 h2 hpres htemp hh
    unfold adjust_pressure_to_sea_level
    have hT : 0 < (temp + 273.15) * 29.263 := by nlinarith
    have hlt : Real.exp (-h2 / ((temp + 273.15) * 29.263)) <
        Real.exp (-h1 / ((temp + 273.15) * 29.263)) :=
      Real.exp_lt_exp.mpr ((div_lt_div_iff_of_pos_right hT).mpr (neg_lt_neg hh))
    exact div_lt_div_of_pos_left hpres (Real.exp_pos _) hlt

/-- C1 (witness): the amended monotonicity at concrete inputs. -/
theorem c1_witness :
    adjust_pressure_to_sea_level 1 0 0 < adjust_pressure_to_sea_level 2 0 0 ∧
    adjust_pressure_to_sea_level 1 0 0 < adjust_pressure_to_sea_level 1 0 1 :=
  ⟨c1_slp_monotone.1 0 0 1 2 (by norm_num),
   c1_slp_monotone.2 1 0 0 1 (by norm_num) (by norm_num) (by norm_num)⟩

/-- C5: for every wind-component pair the reported meteorological wind
direction (`180/pi * arctan2(-u, -v)` with 360 added to any negative result)
lies in `[0, 360)`; the direction for `(u, v) = (0, -1)` is 0 degrees and for
`(u, v) = (-1, 0)` it is 90 degrees. -/
theorem c5_wind_direction_range :
    (∀ u v : ℝ, 0 ≤ reported_wind_direction u v ∧ reported_wind_direction u v < 360) ∧
    reported_wind_direction 0 (-1) = 0 ∧
    reported_wind_direction (-1) 0 = 90 := by
  refine ⟨?_, ?_, ?_⟩
  · intro u v
    have hub := wind_dir_le u v
    have hlb := neg_lt_wind_dir u v
    unfold reported_wind_direction normalize_wind_direction
    by_cases hd : calculate_wind_direction u v < 0
    · rw [if_pos hd]
      constructor <;> linarith
    · rw [if_neg hd]
      push_neg at hd
      exact ⟨hd, by linarith⟩
  · have hz : (Complex.ofReal (-(-1 : ℝ)) + Complex.ofReal (-(0 : ℝ)) * Complex.I) = 1 := by
      norm_num
    unfold reported_wind_direction calculate_wind_direction normalize_wind_direction
    rw [hz, Complex.arg_one, mul_zero, if_neg (by norm_num)]
  · have hz : (Complex.ofReal (-(0 : ℝ)) + Complex.ofReal (-(-1 : ℝ)) * Complex.I) = Complex.I := by
      norm_num
    unfold reported_wind_direction calculate_wind_direction normalize_wind_direction
    rw [hz, Complex.arg_I]
    have h90 : 180 / Real.pi * (Real.pi / 2) = 90 := by
      field_simp
      ring
    rw [h90, if_neg (by norm_num)]

end NDBC
